import Mathlib

/-!
Shallow embedding of the auth-keycloak-server request handlers
(src/utils.ts and the Express entry file): the `/auth/login` redirect,
the `/auth/validate` handler, the `/api/v1` proxy handler, and the
`refreshTokens` helper, together with a model of the Redis key-value
store used by the validate path.

Network calls (Keycloak userinfo, token refresh, backend API, Redis
get/set) are modelled as oracles supplied in an environment record;
each handler returns its HTTP outcome together with the ordered list
of external calls and cookie writes it performed.
-/

namespace AuthKeycloak

/-- JavaScript `a || b` on two possibly-absent strings: an absent or
empty (falsy) left operand yields the right operand. Models
`req.cookies.x || req.headers.cookie?.match(...)?.[1]`. -/
def jsOrStr : Option String → Option String → Option String
  | some s, b => if s = "" then b else some s
  | none,   b => b

/-- JavaScript truthiness of a possibly-absent string. -/
def isTruthy : Option String → Bool
  | some s => s != ""
  | none   => false

/-- JavaScript `n || dflt` on a possibly-absent number: absent or zero
falls back to the default. -/
def jsOrNat : Option Nat → Nat → Nat
  | some n, dflt => if n = 0 then dflt else n
  | none,   dflt => dflt

/-- Events: the external calls and response-cookie writes a handler
performs, in execution order. -/
inductive Ev where
  /-- `redis.get key` -/
  | cacheGet (key : String)
  /-- `redis.set key value 'EX' ttl` (the attempt; it may fail) -/
  | cacheSet (key : String) (ttl : Nat)
  /-- `axios.get` of the Keycloak userinfo endpoint with a bearer token -/
  | provider (bearer : String)
  /-- `axios.post` of the Keycloak token endpoint with grant_type=refresh_token -/
  | refreshCall (rt : String)
  /-- forwarded backend request: method, full URL, bearer token, body -/
  | backend (method url bearer body : String)
  /-- `res.cookie name value {maxAge}` -/
  | cookie (name value : String) (maxAge : Nat)
deriving DecidableEq, Repr

def countCacheOps (evs : List Ev) : Nat :=
  evs.countP fun e => match e with
    | .cacheGet _ => true
    | .cacheSet _ _ => true
    | _ => false

def countProvider (evs : List Ev) : Nat :=
  evs.countP fun e => match e with | .provider _ => true | _ => false

def countRefreshCalls (evs : List Ev) : Nat :=
  evs.countP fun e => match e with | .refreshCall _ => true | _ => false

def countBackend (evs : List Ev) : Nat :=
  evs.countP fun e => match e with | .backend _ _ _ _ => true | _ => false

def countCookies (evs : List Ev) : Nat :=
  evs.countP fun e => match e with | .cookie _ _ _ => true | _ => false

/-! ## src/utils.ts : configuration and refreshTokens -/

def KEYCLOAK_URL : String := "http://localhost:8081"
def REALM : String := "dumper"
def CLIENT_ID : String := "nextjs-app"
def BASE_URL : String := "http://localhost:4000"
def REDIRECT_URI : String := BASE_URL ++ "/auth/callback"
def API_BASE_URL : String := "http://localhost:8080/api/v1"
def APP_URL : String := "http://localhost:3000"

/-- Body of the token endpoint's successful refresh response. -/
structure TokenData where
  access_token : String
  refresh_token : String
  refresh_expires_in : Option Nat
deriving DecidableEq, Repr

/-- Outcome of the single `axios.post` to the token endpoint inside
`refreshTokens`: success with a token payload, or any error (non-2xx
response or network failure), which `axios` raises as an exception. -/
inductive RefreshRes where
  | ok (d : TokenData)
  | fail
deriving DecidableEq, Repr

def ACCESS_COOKIE_MAX_AGE : Nat := 3600 * 1000
def DEFAULT_REFRESH_COOKIE_MAX_AGE : Nat := 30 * 24 * 3600 * 1000

/-- `data.refresh_expires_in * 1000 || 30 * 24 * 3600 * 1000`. -/
def refreshCookieMaxAge (rei : Option Nat) : Nat :=
  jsOrNat (rei.map (· * 1000)) DEFAULT_REFRESH_COOKIE_MAX_AGE

/-- src/utils.ts `refreshTokens`: posts the refresh token to the token
endpoint; on success writes both credential cookies on the response and
returns the new pair; on any failure returns `null` from the catch.
The outcome of the network call is the oracle `r`; the returned event
list is what was performed on the wire and on the response object. -/
def refreshTokens (refreshToken : String) (r : RefreshRes) :
    Option (String × String) × List Ev :=
  match r with
  | .fail => (none, [Ev.refreshCall refreshToken])
  | .ok d =>
    (some (d.access_token, d.refresh_token),
     [Ev.refreshCall refreshToken,
      Ev.cookie "access_token" d.access_token ACCESS_COOKIE_MAX_AGE,
      Ev.cookie "refresh_token" d.refresh_token (refreshCookieMaxAge d.refresh_expires_in)])

/-! ## /auth/login -/

/-- A redirect response: status, target base URL, appended query
parameters (in append order). -/
structure Redirect where
  status : Nat
  base : String
  qparams : List (String × String)
deriving DecidableEq, Repr

/-- The `/auth/login` handler: `res.redirect` (302 by default) to the
provider's authorize endpoint with the four appended searchParams. -/
def login : Redirect :=
  { status := 302
    base := KEYCLOAK_URL ++ "/realms/" ++ REALM ++ "/protocol/openid-connect/auth"
    qparams := [("client_id", CLIENT_ID),
                ("redirect_uri", REDIRECT_URI),
                ("response_type", "code"),
                ("scope", "openid profile email")] }

/-! ## Redis store model (for the key-isolation property) -/

/-- Cache key construction in the validate handler: `userinfo:${token}`. -/
def cacheKey (token : String) : String := "userinfo:" ++ token

/-- Redis `SET`: later writes shadow earlier ones. -/
def rset (store : List (String × String)) (k v : String) : List (String × String) :=
  (k, v) :: store

/-- Redis `GET`: most recent value written under the key, if any. -/
def rget (store : List (String × String)) (k : String) : Option String :=
  match store with
  | [] => none
  | (k', v) :: rest => if k' = k then some v else rget rest k

/-! ## /auth/validate -/

/-- Response bodies the validate handler can produce (the cached payload
is whatever JSON was stored; here cache values are already-parsed
bodies, since the handler stores `JSON.stringify(data)` and returns
`JSON.parse(cached)`). -/
inductive VBody where
  | authFalse
  | authTrue (user : String)
deriving DecidableEq, Repr

/-- Handler outcome: an HTTP response, or an unhandled promise rejection
(the async handler threw outside every try/catch, so no response is
sent by the handler). -/
inductive VOutcome where
  | resp (status : Nat) (body : VBody)
  | crash
deriving DecidableEq, Repr

/-- Result of `await redis.get`: a hit, a miss (null), or a rejected
promise (store unreachable). -/
inductive CacheGetRes where
  | hit (b : VBody)
  | miss
  | down
deriving DecidableEq, Repr

/-- Result of the userinfo `axios.get`: success with the user payload,
or an error whose `error.response?.status` is the given option (none
when there was no HTTP response at all). -/
inductive ProvRes where
  | ok (user : String)
  | err (status : Option Nat)
deriving DecidableEq, Repr

/-- Oracles for one `/auth/validate` request: cache reads/writes keyed
by cache key, userinfo keyed by bearer token, and the single refresh
outcome. `cacheSetOk key = false` means `await redis.set` rejects. -/
structure ValidateEnv where
  cacheGet : String → CacheGetRes
  cacheSetOk : String → Bool
  userinfo : String → ProvRes
  refreshRes : RefreshRes

/-- The cookies / headers of one `/auth/validate` request, as consumed
by lines 97–98: structured cookie values and the raw-header regex
fallback for each token. -/
structure ValidateReq where
  cookieAccess : Option String
  headerAccess : Option String
  cookieRefresh : Option String
  headerRefresh : Option String

/-- The `/auth/validate` handler. Mirrors the source control flow:
missing/falsy token → 401; cache hit → 200 with the cached payload;
cache-get rejection → unhandled (it is awaited outside the try);
miss → userinfo; on success, `redis.set` then 200 — but a rejected
set is caught by the outer catch, whose 401-test fails (no
`error.response`), yielding 401; on a 401 with a truthy refresh token,
one `refreshTokens` call then one retry, whose own failure yields 401
with no further refresh. -/
def validate (req : ValidateReq) (env : ValidateEnv) : VOutcome × List Ev :=
  match jsOrStr req.cookieAccess req.headerAccess with
  | none => (.resp 401 .authFalse, [])
  | some token =>
    if token = "" then (.resp 401 .authFalse, [])
    else
      let key := cacheKey token
      match env.cacheGet key with
      | .hit b => (.resp 200 b, [.cacheGet key])
      | .down => (.crash, [.cacheGet key])
      | .miss =>
        let pre : List Ev := [.cacheGet key, .provider token]
        match env.userinfo token with
        | .ok user =>
          if env.cacheSetOk key then
            (.resp 200 (.authTrue user), pre ++ [.cacheSet key 300])
          else
            (.resp 401 .authFalse, pre ++ [.cacheSet key 300])
        | .err st =>
          match st, jsOrStr req.cookieRefresh req.headerRefresh with
          | some 401, some rt =>
            if rt = "" then (.resp 401 .authFalse, pre)
            else
              match refreshTokens rt env.refreshRes with
              | (none, revs) => (.resp 401 .authFalse, pre ++ revs)
              | (some (at2, _), revs) =>
                match env.userinfo at2 with
                | .ok user2 =>
                  if env.cacheSetOk (cacheKey at2) then
                    (.resp 200 (.authTrue user2),
                     pre ++ revs ++ [.provider at2, .cacheSet (cacheKey at2) 300])
                  else
                    (.resp 401 .authFalse,
                     pre ++ revs ++ [.provider at2, .cacheSet (cacheKey at2) 300])
                | .err _ =>
                  (.resp 401 .authFalse, pre ++ revs ++ [.provider at2])
          | _, _ => (.resp 401 .authFalse, pre)

/-! ## /api/v1 proxy -/

/-- Response bodies the proxy can produce. -/
inductive PBody where
  | unauthorized
  | apiError
  | payload (d : String)
deriving DecidableEq, Repr

/-- Proxy outcome: status and body. -/
structure POutcome where
  status : Nat
  body : PBody
deriving DecidableEq, Repr

/-- Result of a forwarded backend `axios` call. -/
inductive BackendRes where
  | ok (d : String)
  | err (status : Option Nat)
deriving DecidableEq, Repr

/-- Oracles for one `/api/v1` request: backend outcome keyed by the
bearer token used, and the single refresh outcome. -/
structure ProxyEnv where
  backend : String → BackendRes
  refreshRes : RefreshRes

/-- One inbound `/api/v1` request: the two structured cookies (the proxy
has no raw-header fallback), method, `req.originalUrl` (which includes
the mount prefix and the query string), parsed body, and `req.query`. -/
structure ProxyReq where
  cookieAccess : Option String
  cookieRefresh : Option String
  method : String
  originalUrl : String
  body : String
  query : List (String × String)

/-- Delete the first occurrence of `pat` from a character list
(JavaScript `String.prototype.replace` with a string pattern and an
empty replacement). -/
def removeFirstL (pat : List Char) : List Char → List Char
  | [] => []
  | c :: cs =>
    if pat.isPrefixOf (c :: cs) then (c :: cs).drop pat.length
    else c :: removeFirstL pat cs

/-- `s.replace(pat, '')` for a string pattern: first occurrence only. -/
def replaceFirst (s pat : String) : String :=
  String.mk (removeFirstL pat.data s.data)

/-- axios params serialization: `k=v` pairs joined with `&`. -/
def serializeQuery (q : List (String × String)) : String :=
  String.intercalate "&" (q.map fun p => p.1 ++ "=" ++ p.2)

/-- `url.indexOf('?') !== -1`: whether the character occurs in the
string. -/
def containsChar (s : String) (c : Char) : Bool :=
  s.data.contains c

/-- axios URL building: nonempty params are appended to the url with
`?`, or with `&` when the url already contains `?`. -/
def buildURL (url : String) (q : List (String × String)) : String :=
  match q with
  | [] => url
  | _ => url ++ (if containsChar url '?' then "&" else "?") ++ serializeQuery q

/-- The URL the proxy hands to axios: `API_BASE_URL` plus
`req.originalUrl.replace('/api/v1', '')` (which keeps the inbound query
string), with `params: req.query` then appended by axios. -/
def proxyUrl (originalUrl : String) (q : List (String × String)) : String :=
  buildURL (API_BASE_URL ++ replaceFirst originalUrl "/api/v1") q

/-- The `/api/v1` proxy handler. Mirrors the source control flow:
missing/falsy token → 401 `{error:'Unauthorized'}`; forward once; on a
401 with a truthy refresh cookie, one `refreshTokens` call then one
retry whose own failure (any status) yields 401 `{error:'Unauthorized'}`;
any other first-attempt failure → `error.response?.status || 500` with
`{error:'API error'}`. -/
def proxy (req : ProxyReq) (env : ProxyEnv) : POutcome × List Ev :=
  match req.cookieAccess with
  | none => (⟨401, .unauthorized⟩, [])
  | some token =>
    if token = "" then (⟨401, .unauthorized⟩, [])
    else
      let url := proxyUrl req.originalUrl req.query
      let ev1 : List Ev := [.backend req.method url token req.body]
      match env.backend token with
      | .ok d => (⟨200, .payload d⟩, ev1)
      | .err st =>
        match st, req.cookieRefresh with
        | some 401, some rt =>
          if rt = "" then (⟨jsOrNat st 500, .apiError⟩, ev1)
          else
            match refreshTokens rt env.refreshRes with
            | (none, revs) => (⟨401, .unauthorized⟩, ev1 ++ revs)
            | (some (at2, _), revs) =>
              match env.backend at2 with
              | .ok d =>
                (⟨200, .payload d⟩,
                 ev1 ++ revs ++ [.backend req.method url at2 req.body])
              | .err _ =>
                (⟨401, .unauthorized⟩,
                 ev1 ++ revs ++ [.backend req.method url at2 req.body])
        | _, _ => (⟨jsOrNat st 500, .apiError⟩, ev1)

/-! ## Theorems -/

/-- C3: a request with no (or falsy) access credential is answered 401
by both the `/auth/validate` handler and the `/api/v1` proxy with an
empty event trace: no backend, provider or cache call is made. -/
theorem missing_token_rejected_without_calls
    (vreq : ValidateReq) (venv : ValidateEnv) (preq : ProxyReq) (penv : ProxyEnv)
    (hv : isTruthy (jsOrStr vreq.cookieAccess vreq.headerAccess) = false)
    (hp : isTruthy preq.cookieAccess = false) :
    validate vreq venv = (.resp 401 .authFalse, []) ∧
    proxy preq penv = (⟨401, .unauthorized⟩, []) := by
  constructor
  · rcases h : jsOrStr vreq.cookieAccess vreq.headerAccess with _ | s
    · simp [validate, h]
    · rw [h] at hv
      simp [isTruthy] at hv
      simp [validate, h, hv]
  · rcases h : preq.cookieAccess with _ | s
    · simp [proxy, h]
    · rw [h] at hp
      simp [isTruthy] at hp
      simp [proxy, h, hp]

/-- C3 witness: concrete requests with no cookies at all. -/
theorem missing_token_rejected_without_calls_witness :
    validate ⟨none, none, none, none⟩
        ⟨fun _ => .miss, fun _ => true, fun _ => .ok "u1", .fail⟩
      = (.resp 401 .authFalse, []) ∧
    proxy ⟨none, none, "GET", "/api/v1/x", "", []⟩ ⟨fun _ => .ok "d", .fail⟩
      = (⟨401, .unauthorized⟩, []) :=
  missing_token_rejected_without_calls _ _ _ _ rfl rfl

/-- C6: a failed `refreshTokens` call returns `null` and writes no
cookie directives: the only event is the token-endpoint call itself,
so the client's stale credential cookies are left untouched. -/
theorem failed_refresh_returns_null_writes_no_cookies (rt : String) :
    (refreshTokens rt RefreshRes.fail).1 = none ∧
    countCookies (refreshTokens rt RefreshRes.fail).2 = 0 := by
  simp [refreshTokens, countCookies]

/-- C8 counterexample: the `/auth/login` redirect appends exactly four
query parameters, so it cannot contain five required parameters. -/
theorem login_params_are_four_not_five :
    login.qparams.length = 4 ∧ ¬ login.qparams.length = 5 := by
  decide

/-- C8 (amended to four parameters): `/auth/login` responds 302 to the
provider's authorize endpoint carrying exactly the four required query
parameters verbatim: client id, redirect URI, `response_type=code` and
scope `openid profile email`. -/
theorem login_redirects_with_four_params :
    login.status = 302 ∧
    login.base = KEYCLOAK_URL ++ "/realms/" ++ REALM ++ "/protocol/openid-connect/auth" ∧
    ("client_id", CLIENT_ID) ∈ login.qparams ∧
    ("redirect_uri", REDIRECT_URI) ∈ login.qparams ∧
    ("response_type", "code") ∈ login.qparams ∧
    ("scope", "openid profile email") ∈ login.qparams ∧
    login.qparams.length = 4 := by
  refine ⟨rfl, rfl, ?_, ?_, ?_, ?_, rfl⟩ <;> simp [login]

/-- Keys of the form `userinfo:<token>` are injective in the token. -/
theorem cacheKey_injective {t1 t2 : String} (h : cacheKey t1 = cacheKey t2) :
    t1 = t2 := by
  have hd := congrArg String.data h
  simp only [cacheKey, String.data_append] at hd
  exact String.ext (List.append_cancel_left hd)

/-- C9: key isolation of the `userinfo:<token>` keying scheme — a cache
entry stored under one access token is never returned by a lookup for a
different token, and the get after put round-trips on the identical
key. -/
theorem cache_key_isolation (t1 t2 v : String) (store : List (String × String))
    (h : t1 ≠ t2) :
    rget (rset store (cacheKey t1) v) (cacheKey t2) = rget store (cacheKey t2) ∧
    rget (rset store (cacheKey t1) v) (cacheKey t1) = some v := by
  have hk : cacheKey t1 ≠ cacheKey t2 := fun hc => h (cacheKey_injective hc)
  constructor
  · simp [rset, rget, hk]
  · simp [rset, rget]

/-- C9 witness: tokens `AT1` and `AT2` on the empty store. -/
theorem cache_key_isolation_witness :
    rget (rset [] (cacheKey "AT1") "u1") (cacheKey "AT2") = rget [] (cacheKey "AT2") ∧
    rget (rset [] (cacheKey "AT1") "u1") (cacheKey "AT1") = some "u1" :=
  cache_key_isolation "AT1" "AT2" "u1" [] (by decide)

/-- C10: on a live cache entry for the request's access token, the
validate handler returns the cached payload with status 200 and its
trace holds no provider call and no refresh call — the provider oracle
is never consulted, so a token the provider has since revoked is still
reported as authenticated from the cache. -/
theorem cache_hit_bypasses_provider
    (req : ValidateReq) (env : ValidateEnv) (t : String) (b : VBody)
    (hA : jsOrStr req.cookieAccess req.headerAccess = some t) (ht : t ≠ "")
    (hHit : env.cacheGet (cacheKey t) = .hit b) :
    validate req env = (.resp 200 b, [.cacheGet (cacheKey t)]) ∧
    countProvider (validate req env).2 = 0 ∧
    countRefreshCalls (validate req env).2 = 0 := by
  have hmain : validate req env = (.resp 200 b, [.cacheGet (cacheKey t)]) := by
    simp [validate, hA, ht, hHit]
  refine ⟨hmain, ?_, ?_⟩ <;> simp [hmain, countProvider, countRefreshCalls]

/-- C10 witness: a cached entry for `AT1` while the provider oracle
rejects `AT1` with 401 — the response is still the cached 200. -/
theorem cache_hit_bypasses_provider_witness :
    validate ⟨some "AT1", none, some "RT1", none⟩
        ⟨fun _ => .hit (.authTrue "u1"), fun _ => true, fun _ => .err (some 401), .fail⟩
      = (.resp 200 (.authTrue "u1"), [.cacheGet (cacheKey "AT1")]) ∧
    countProvider (validate ⟨some "AT1", none, some "RT1", none⟩
        ⟨fun _ => .hit (.authTrue "u1"), fun _ => true,
         fun _ => .err (some 401), .fail⟩).2 = 0 ∧
    countRefreshCalls (validate ⟨some "AT1", none, some "RT1", none⟩
        ⟨fun _ => .hit (.authTrue "u1"), fun _ => true,
         fun _ => .err (some 401), .fail⟩).2 = 0 :=
  cache_hit_bypasses_provider _ _ "AT1" (.authTrue "u1") rfl (by decide) rfl

/-- C1: on a first-attempt upstream 401 with a present refresh
credential that the provider accepts, both the `/auth/validate` path
and the `/api/v1` proxy path perform exactly one refresh call and
exactly one retry (two provider / backend attempts in total), and a 401
on the retried attempt terminates the request with a 401 response and
still only the single refresh call. -/
theorem refresh_retry_once_both_paths
    (vreq : ValidateReq) (venv : ValidateEnv) (t rt : String) (d : TokenData)
    (hA : jsOrStr vreq.cookieAccess vreq.headerAccess = some t) (ht : t ≠ "")
    (hMiss : venv.cacheGet (cacheKey t) = .miss)
    (hU : venv.userinfo t = .err (some 401))
    (hR : jsOrStr vreq.cookieRefresh vreq.headerRefresh = some rt) (hrt : rt ≠ "")
    (hRef : venv.refreshRes = .ok d)
    (preq : ProxyReq) (penv : ProxyEnv) (t2 rt2 : String) (e : TokenData)
    (hA2 : preq.cookieAccess = some t2) (ht2 : t2 ≠ "")
    (hB : penv.backend t2 = .err (some 401))
    (hR2 : preq.cookieRefresh = some rt2) (hrt2 : rt2 ≠ "")
    (hRef2 : penv.refreshRes = .ok e) :
    (countRefreshCalls (validate vreq venv).2 = 1 ∧
     countProvider (validate vreq venv).2 = 2 ∧
     (venv.userinfo d.access_token = .err (some 401) →
        (validate vreq venv).1 = .resp 401 .authFalse)) ∧
    (countRefreshCalls (proxy preq penv).2 = 1 ∧
     countBackend (proxy preq penv).2 = 2 ∧
     (penv.backend e.access_token = .err (some 401) →
        (proxy preq penv).1 = ⟨401, .unauthorized⟩)) := by
  constructor
  · rcases hup : venv.userinfo d.access_token with u2 | s2
    · by_cases hset : venv.cacheSetOk (cacheKey d.access_token)
      · refine ⟨?_, ?_, ?_⟩ <;>
          simp [validate, hA, ht, hMiss, hU, hR, hrt, hRef, refreshTokens, hup,
                hset, countRefreshCalls, countProvider]
      · refine ⟨?_, ?_, ?_⟩ <;>
          simp [validate, hA, ht, hMiss, hU, hR, hrt, hRef, refreshTokens, hup,
                hset, countRefreshCalls, countProvider]
    · refine ⟨?_, ?_, ?_⟩ <;>
        simp [validate, hA, ht, hMiss, hU, hR, hrt, hRef, refreshTokens, hup,
              countRefreshCalls, countProvider]
  · rcases hup : penv.backend e.access_token with u2 | s2
    · refine ⟨?_, ?_, ?_⟩ <;>
        simp [proxy, hA2, ht2, hB, hR2, hrt2, hRef2, refreshTokens, hup,
              countRefreshCalls, countBackend]
    · refine ⟨?_, ?_, ?_⟩ <;>
        simp [proxy, hA2, ht2, hB, hR2, hrt2, hRef2, refreshTokens, hup,
              countRefreshCalls, countBackend]

/-- C1 witness: both paths at concrete tokens, with the provider
rejecting the refreshed token again. -/
theorem refresh_retry_once_both_paths_witness :
    (countRefreshCalls (validate ⟨some "AT1", none, some "RT1", none⟩
        ⟨fun _ => .miss, fun _ => true, fun _ => .err (some 401),
         .ok ⟨"AT2", "RT2", some 1800⟩⟩).2 = 1 ∧
     countProvider (validate ⟨some "AT1", none, some "RT1", none⟩
        ⟨fun _ => .miss, fun _ => true, fun _ => .err (some 401),
         .ok ⟨"AT2", "RT2", some 1800⟩⟩).2 = 2 ∧
     ((⟨fun _ => .miss, fun _ => true, fun _ => .err (some 401),
        .ok ⟨"AT2", "RT2", some 1800⟩⟩ : ValidateEnv).userinfo "AT2"
          = .err (some 401) →
        (validate ⟨some "AT1", none, some "RT1", none⟩
          ⟨fun _ => .miss, fun _ => true, fun _ => .err (some 401),
           .ok ⟨"AT2", "RT2", some 1800⟩⟩).1 = .resp 401 .authFalse)) ∧
    (countRefreshCalls (proxy ⟨some "AT1", some "RT1", "GET", "/api/v1/x", "", []⟩
        ⟨fun _ => .err (some 401), .ok ⟨"AT2", "RT2", some 1800⟩⟩).2 = 1 ∧
     countBackend (proxy ⟨some "AT1", some "RT1", "GET", "/api/v1/x", "", []⟩
        ⟨fun _ => .err (some 401), .ok ⟨"AT2", "RT2", some 1800⟩⟩).2 = 2 ∧
     ((⟨fun _ => .err (some 401), .ok ⟨"AT2", "RT2", some 1800⟩⟩ : ProxyEnv).backend "AT2"
          = .err (some 401) →
        (proxy ⟨some "AT1", some "RT1", "GET", "/api/v1/x", "", []⟩
          ⟨fun _ => .err (some 401), .ok ⟨"AT2", "RT2", some 1800⟩⟩).1
            = ⟨401, .unauthorized⟩)) :=
  refresh_retry_once_both_paths
    ⟨some "AT1", none, some "RT1", none⟩
    ⟨fun _ => .miss, fun _ => true, fun _ => .err (some 401),
     .ok ⟨"AT2", "RT2", some 1800⟩⟩
    "AT1" "RT1" ⟨"AT2", "RT2", some 1800⟩
    rfl (by decide) rfl rfl rfl (by decide) rfl
    ⟨some "AT1", some "RT1", "GET", "/api/v1/x", "", []⟩
    ⟨fun _ => .err (some 401), .ok ⟨"AT2", "RT2", some 1800⟩⟩
    "AT1" "RT1" ⟨"AT2", "RT2", some 1800⟩
    rfl (by decide) rfl rfl (by decide) rfl

/-- Request used to exercise the cache-failure behaviour of
`/auth/validate`: access cookie `AT1`, refresh cookie `RT1`. -/
def reqC2 : ValidateReq := ⟨some "AT1", none, some "RT1", none⟩

/-- Environment in which `redis.get` rejects (store unreachable). -/
def envCacheDown : ValidateEnv :=
  ⟨fun _ => .down, fun _ => true, fun _ => .ok "u1", .fail⟩

/-- Environment in which `redis.get` misses but `redis.set` rejects,
while the provider accepts the token. -/
def envCacheSetFails : ValidateEnv :=
  ⟨fun _ => .miss, fun _ => false, fun _ => .ok "u1", .fail⟩

/-- The same environment with a working `redis.set`. -/
def envCacheSetWorks : ValidateEnv :=
  ⟨fun _ => .miss, fun _ => true, fun _ => .ok "u1", .fail⟩

/-- C2: evaluation of the validate handler at the failing inputs. A
rejecting `redis.get` is awaited outside the try/catch, so the handler
ends in an unhandled rejection and sends no response; a rejecting
`redis.set` after a successful provider call lands in the catch (whose
401-test fails, the error having no `response`) and turns the
authenticated 200 into a 401 — the same request with a working cache
returns 200. Cache unavailability therefore does change the outcome. -/
theorem cache_failure_changes_outcome :
    (validate reqC2 envCacheDown).1 = .crash ∧
    (validate reqC2 envCacheSetFails).1 = .resp 401 .authFalse ∧
    (validate reqC2 envCacheSetWorks).1 = .resp 200 (.authTrue "u1") := by
  refine ⟨rfl, rfl, rfl⟩

/-- Proxy request with a valid refresh cookie used for the C4
counterexample: the retried backend call fails with 503. -/
def reqC4 : ProxyReq := ⟨some "AT1", some "RT1", "GET", "/api/v1/x", "", []⟩

/-- Backend rejects `AT1` with 401 and `AT2` with 503; refresh rotates
to `AT2`. -/
def envC4 : ProxyEnv :=
  ⟨fun b => if b = "AT1" then .err (some 401) else .err (some 503),
   .ok ⟨"AT2", "RT2", some 1800⟩⟩

/-- C4 counterexample: the refresh succeeds and the retried backend
call fails with 503, yet the proxy's response is
`401 {error:'Unauthorized'}` — the second attempt's status is not
surfaced verbatim. -/
theorem retry_failure_not_surfaced_verbatim :
    (proxy reqC4 envC4).1 = ⟨401, .unauthorized⟩ ∧
    (proxy reqC4 envC4).1.status ≠ 503 := by
  decide

/-- C4 (amended): when the refresh succeeds and the retried backend
call fails with any status, the proxy responds
`401 {error:'Unauthorized'}` regardless of that status, after exactly
one refresh call and two backend attempts. -/
theorem retry_failure_surfaced_as_401
    (req : ProxyReq) (env : ProxyEnv) (t rt : String) (d : TokenData)
    (st2 : Option Nat)
    (hA : req.cookieAccess = some t) (ht : t ≠ "")
    (hB : env.backend t = .err (some 401))
    (hR : req.cookieRefresh = some rt) (hrt : rt ≠ "")
    (hRef : env.refreshRes = .ok d)
    (hB2 : env.backend d.access_token = .err st2) :
    (proxy req env).1 = ⟨401, .unauthorized⟩ ∧
    countRefreshCalls (proxy req env).2 = 1 ∧
    countBackend (proxy req env).2 = 2 := by
  refine ⟨?_, ?_, ?_⟩ <;>
    simp [proxy, hA, ht, hB, hR, hrt, hRef, refreshTokens, hB2,
          countRefreshCalls, countBackend]

/-- C4 witness: the concrete 503-on-retry scenario. -/
theorem retry_failure_surfaced_as_401_witness :
    (proxy reqC4 envC4).1 = ⟨401, .unauthorized⟩ ∧
    countRefreshCalls (proxy reqC4 envC4).2 = 1 ∧
    countBackend (proxy reqC4 envC4).2 = 2 :=
  retry_failure_surfaced_as_401 reqC4 envC4 "AT1" "RT1"
    ⟨"AT2", "RT2", some 1800⟩ (some 503) rfl (by decide) rfl rfl (by decide)
    rfl rfl

/-- Proxy request with no refresh cookie, for the C5 counterexample. -/
def reqC5 : ProxyReq := ⟨some "AT1", none, "GET", "/api/v1/x", "", []⟩

/-- Backend that rejects every token with 401. -/
def envC5 : ProxyEnv := ⟨fun _ => .err (some 401), .fail⟩

/-- C5 counterexample: on a backend 401 with no refresh cookie the
proxy responds with body `{error:'API error'}` (the generic
upstream-error branch), not the `{error:'Unauthorized'}` body of the
other unauthenticated branches; the refresh endpoint is not called. -/
theorem backend_401_without_refresh_is_api_error :
    (proxy reqC5 envC5).1 = ⟨401, .apiError⟩ ∧
    (proxy reqC5 envC5).1 ≠ ⟨401, .unauthorized⟩ ∧
    countRefreshCalls (proxy reqC5 envC5).2 = 0 := by
  decide

/-- C5 (amended): on a backend 401 with no (or falsy) refresh cookie,
the proxy makes no refresh call and responds 401 with the generic
`{error:'API error'}` body of the else branch, not the
`{error:'Unauthorized'}` body. -/
theorem backend_401_without_refresh_no_refresh_call
    (req : ProxyReq) (env : ProxyEnv) (t : String)
    (hA : req.cookieAccess = some t) (ht : t ≠ "")
    (hB : env.backend t = .err (some 401))
    (hR : isTruthy req.cookieRefresh = false) :
    (proxy req env).1 = ⟨401, .apiError⟩ ∧
    countRefreshCalls (proxy req env).2 = 0 := by
  rcases h : req.cookieRefresh with _ | s
  · refine ⟨?_, ?_⟩ <;>
      simp [proxy, hA, ht, hB, h, jsOrNat, countRefreshCalls]
  · rw [h] at hR
    simp [isTruthy] at hR
    refine ⟨?_, ?_⟩ <;>
      simp [proxy, hA, ht, hB, h, hR, jsOrNat, countRefreshCalls]

/-- C5 witness: the concrete no-refresh-cookie scenario. -/
theorem backend_401_without_refresh_no_refresh_call_witness :
    (proxy reqC5 envC5).1 = ⟨401, .apiError⟩ ∧
    countRefreshCalls (proxy reqC5 envC5).2 = 0 :=
  backend_401_without_refresh_no_refresh_call reqC5 envC5 "AT1"
    rfl (by decide) rfl rfl

/-- Proxy request carrying a query string, for the C7 counterexample. -/
def reqC7 : ProxyReq :=
  ⟨some "AT1", none, "GET", "/api/v1/projects?limit=10", "", [("limit", "10")]⟩

/-- Backend that accepts every token. -/
def envC7 : ProxyEnv := ⟨fun _ => .ok "D", .fail⟩

/-- C7 counterexample: for an inbound request with query `limit=10`,
the forwarded URL carries the query parameter twice — once kept inside
`originalUrl`'s tail and once re-appended by axios from `params:
req.query` — so the original query parameters are not forwarded exactly
once each. -/
theorem query_params_forwarded_twice :
    (proxy reqC7 envC7).2 =
      [Ev.backend "GET" "http://localhost:8080/api/v1/projects?limit=10&limit=10"
        "AT1" ""] ∧
    ¬ (proxy reqC7 envC7).2 =
      [Ev.backend "GET" "http://localhost:8080/api/v1/projects?limit=10"
        "AT1" ""] := by
  decide

/-- C7 (amended): per attempt the proxy issues exactly one backend
request carrying the original method, the path tail after `/api/v1`
(which retains the inbound query string), the original body and a
bearer header with the current access token — but the query parameters
of `req.query` are appended a second time to that URL, so each original
query parameter appears twice when the query is nonempty. -/
theorem proxy_forwards_method_path_body_bearer
    (req : ProxyReq) (env : ProxyEnv) (t d : String)
    (hA : req.cookieAccess = some t) (ht : t ≠ "")
    (hB : env.backend t = .ok d) :
    proxy req env = (⟨200, .payload d⟩,
      [.backend req.method (proxyUrl req.originalUrl req.query) t req.body]) := by
  simp [proxy, hA, ht, hB]

/-- C7 witness: the concrete `limit=10` request, whose forwarded URL
duplicates the query parameter. -/
theorem proxy_forwards_method_path_body_bearer_witness :
    proxy reqC7 envC7 = (⟨200, .payload "D"⟩,
      [.backend reqC7.method (proxyUrl reqC7.originalUrl reqC7.query)
        "AT1" reqC7.body]) :=
  proxy_forwards_method_path_body_bearer reqC7 envC7 "AT1" "D"
    rfl (by decide) rfl

end AuthKeycloak
